/-
Verification of the weather agent CLI (weather_agent_cli.py).

The program is a linear orchestration script around three external effects:
a hosted language-model call (boto3 / bedrock `converse`), an external fetch
command (`subprocess.run(['curl', '-s', url], timeout=30)`), and Python's
`json.loads`.  Each external effect is modelled by an explicit outcome value
supplied by the environment (a `World`), and the script's own logic is
translated function by function.  Uncaught Python exceptions are modelled as
`Except.error`; values actually returned by a function are `Except.ok`.

String operations mirror Python's semantics on ASCII data: `str.strip`
(`pyStrip`), `str.lower` (`pyToLower`, ASCII range), `str.startswith`
(`pyStartsWith`), substring occurrence (`occursIn`).
-/
import Mathlib

/-! ### Python string primitives -/

/-- The whitespace characters removed by Python's `str.strip()` (ASCII range). -/
def pyIsSpace (c : Char) : Bool :=
  c == ' ' || c == '\t' || c == '\n' || c == '\r' || c == '\x0b' || c == '\x0c'

/-- Python `s.strip()`: remove leading and trailing whitespace. -/
def pyStrip (s : String) : String :=
  ⟨((s.data.dropWhile pyIsSpace).reverse.dropWhile pyIsSpace).reverse⟩

/-- ASCII lowering of a single character, as Python `str.lower` acts on ASCII. -/
def lowerChar (c : Char) : Char :=
  if c = 'A' then 'a' else if c = 'B' then 'b' else if c = 'C' then 'c'
  else if c = 'D' then 'd' else if c = 'E' then 'e' else if c = 'F' then 'f'
  else if c = 'G' then 'g' else if c = 'H' then 'h' else if c = 'I' then 'i'
  else if c = 'J' then 'j' else if c = 'K' then 'k' else if c = 'L' then 'l'
  else if c = 'M' then 'm' else if c = 'N' then 'n' else if c = 'O' then 'o'
  else if c = 'P' then 'p' else if c = 'Q' then 'q' else if c = 'R' then 'r'
  else if c = 'S' then 's' else if c = 'T' then 't' else if c = 'U' then 'u'
  else if c = 'V' then 'v' else if c = 'W' then 'w' else if c = 'X' then 'x'
  else if c = 'Y' then 'y' else if c = 'Z' then 'z' else c

/-- Python `s.lower()` restricted to ASCII letters. -/
def pyToLower (s : String) : String := ⟨s.data.map lowerChar⟩

/-- `leadsWith pat l` is true when the char list `l` begins with `pat`. -/
def leadsWith : List Char → List Char → Bool
  | [], _ => true
  | _ :: _, [] => false
  | a :: as, b :: bs => if a = b then leadsWith as bs else false

/-- Python `s.startswith(pre)`. -/
def pyStartsWith (s pre : String) : Bool := leadsWith pre.data s.data

/-- `occursIn pat l` is true when `pat` occurs contiguously inside `l`
(Python's `pat in s` on strings). -/
def occursIn (pat : List Char) : List Char → Bool
  | [] => leadsWith pat []
  | c :: cs => leadsWith pat (c :: cs) || occursIn pat cs

theorem data_append (s t : String) : (s ++ t).data = s.data ++ t.data := rfl

theorem str_length_append (s t : String) : (s ++ t).length = s.length + t.length := by
  show (s.data ++ t.data).length = s.data.length + t.data.length
  exact List.length_append _ _

/-! ### 4.1 Text Generation Client: `call_claude_sonnet` -/

/-- The outcome of the remote `bedrock.converse` call: either the call raised
an exception (network, auth, quota, ...) or it returned a response whose
output message holds a list of content elements, each with a text field. -/
inductive ConverseOutcome where
  | completed (contentTexts : List String)
  | raise (msg : String)

/-- `call_claude_sonnet(prompt)` (lines 7-36).

`boto3.client(...)` is evaluated *before* the `try` block, so an exception
raised while constructing the client propagates out of the function
(`Except.error`).  Everything inside the `try` — the `converse` call and the
extraction `response['output']['message']['content'][0]['text']` — is guarded
by `except Exception`, which converts the exception to `(False, message)`.
Indexing `[0]` into an empty content list raises `IndexError("list index out
of range")`, which that handler also catches. -/
def call_claude_sonnet (client : Except String Unit)
    (converse : String → ConverseOutcome) (prompt : String) :
    Except String (Bool × String) :=
  match client with
  | .error e => .error e
  | .ok _ =>
    match converse prompt with
    | .raise e => .ok (false, "Error calling Claude: " ++ e)
    | .completed [] => .ok (false, "Error calling Claude: list index out of range")
    | .completed (t :: _) => .ok (true, t)

/-- Discriminator: did the call return a `(False, message)` failure tuple
(as opposed to succeeding or raising)? -/
def returnsFailureTuple : Except String (Bool × String) → Bool
  | .ok (false, _) => true
  | _ => false

/-! ### 4.2 Command Execution wrapper: `execute_curl_command` -/

/-- Outcome of `subprocess.run(argv, capture_output=True, text=True,
timeout=t)`: the process completed with an exit status and captured streams,
the timeout elapsed (`subprocess.TimeoutExpired`), or the invocation itself
raised some other exception. -/
inductive CurlOutcome where
  | completed (returncode : Int) (stdout stderr : String)
  | timeout
  | raise (msg : String)

/-- `execute_curl_command(url)` (lines 38-62): run `['curl', '-s', url]` with
a 30-second timeout and fold the outcome into a `(success, text)` pair. -/
def execute_curl_command (run : List String → Nat → CurlOutcome) (url : String) :
    Bool × String :=
  match run ["curl", "-s", url] 30 with
  | .completed rc out err =>
    if rc = 0 then (true, out) else (false, "Curl command failed: " ++ err)
  | .timeout => (false, "Request timed out after 30 seconds")
  | .raise e => (false, "Error executing curl: " ++ e)

/-! ### 4.3 Planner: `generate_weather_api_calls` -/

/-- The prompt built on lines 74-99 (Python f-string, `{{lat}}` rendering as
a literal brace pair). -/
def planPrompt (location : String) : String :=
  "\nYou are an expert at working with the National Weather Service (NWS) API.\n\nYour task: Generate the NWS API URL to get weather forecast data for \"" ++ location ++ "\".\n\nInstructions:\n1. First, determine the approximate latitude and longitude coordinates for this location\n2. Generate the NWS Points API URL: https://api.weather.gov/points/{lat},{lon}\n\nFor the coordinates, use your knowledge to estimate:\n- Major cities: Use well-known coordinates\n- ZIP codes: Estimate based on the area\n- States: Use approximate center coordinates\n- In case a location description is provided instead of a location name, please use the most likely city and state name as the location for the coordinates\n\nExample for Seattle:\nhttps://api.weather.gov/points/47.6062,-122.3321\n\nExample for largest city in USA:\nBased on your knowledge, you will establish location is New York City\nhttps://api.weather.gov/points/40.7128,-74.0060\n\nNow generate the API call (Points API) for the established location. \nReturn ONLY the complete Points API URL, nothing else.\nFormat: https://api.weather.gov/points/LAT,LON\n"

/-- The string the planner requires the trimmed model output to start with
(line 106). -/
def nwsPointsStart : String := "https://api.weather.gov/points/"

/-- Result of the planner: `(True, [url])` or `(False, message)`. -/
inductive PlanResult where
  | ok (api_calls : List String)
  | fail (msg : String)

/-- `generate_weather_api_calls(location)` (lines 64-111): ask the model for
a Points API URL, strip the response, accept it when it starts with
`https://api.weather.gov/points/`, otherwise fail with the stripped text
embedded in the message.  A failure of the model call itself is passed
through; an exception from client construction propagates. -/
def generate_weather_api_calls (client : Except String Unit)
    (converse : String → ConverseOutcome) (location : String) :
    Except String PlanResult :=
  match call_claude_sonnet client converse (planPrompt location) with
  | .error e => .error e
  | .ok (true, response) =>
    if pyStartsWith (pyStrip response) nwsPointsStart then
      .ok (.ok [pyStrip response])
    else
      .ok (.fail ("AI generated invalid URL: " ++ pyStrip response))
  | .ok (false, response) => .ok (.fail response)

/-! ### 4.4 Response Parser: `get_forecast_url_from_points_response` -/

/-- A parsed JSON document, as `json.loads` would return it (numbers kept as
their literal text; ints and floats are not distinguished here). -/
inductive JsonValue where
  | null
  | bool (b : Bool)
  | num (lit : String)
  | str (s : String)
  | arr (xs : List JsonValue)
  | obj (fields : List (String × JsonValue))

/-- Python dict lookup on the field list produced by `json.loads`
(duplicate keys: the last occurrence wins, as in `dict` construction). -/
def dictLookup (fields : List (String × JsonValue)) (key : String) : Option JsonValue :=
  match fields with
  | [] => none
  | (k, v) :: rest =>
    match dictLookup rest key with
    | some w => some w
    | none => if k = key then some v else none

/-- The exceptions relevant to `data['properties']['forecast']`. -/
inductive PyExn where
  | keyError (key : String)
  | typeError (msg : String)

/-- `str(e)` for these exceptions: `str(KeyError(k))` is the repr of the key
(with quotes); `str(TypeError(m))` is the message. -/
def pyStr : PyExn → String
  | .keyError k => "'" ++ k ++ "'"
  | .typeError m => m

/-- The `Type: message` line of an uncaught exception's traceback. -/
def pyTracebackMsg : PyExn → String
  | .keyError k => "KeyError: '" ++ k ++ "'"
  | .typeError m => "TypeError: " ++ m

/-- Python subscript `v[key]` with a string key: dict lookup raising
`KeyError` on a missing key; on any non-dict value it raises `TypeError`
(the message text depends on the value's type). -/
def pySubscript : JsonValue → String → Except PyExn JsonValue
  | .obj fields, key =>
    match dictLookup fields key with
    | some v => .ok v
    | none => .error (.keyError key)
  | .arr _, _ => .error (.typeError "list indices must be integers or slices, not 'str'")
  | .str _, _ => .error (.typeError "string indices must be integers, not 'str'")
  | .num _, _ => .error (.typeError "'float' object is not subscriptable")
  | .bool _, _ => .error (.typeError "'bool' object is not subscriptable")
  | .null, _ => .error (.typeError "'NoneType' object is not subscriptable")

/-- Outcome of `json.loads` on a document string: a parsed value, or a
`json.JSONDecodeError` with message `m`.  `json.loads` is Python standard
library code, so it enters the model as an environment function
`String → LoadsOutcome`; by its contract it raises `JSONDecodeError` exactly
on syntactically invalid documents. -/
inductive LoadsOutcome where
  | ok (v : JsonValue)
  | decodeError (msg : String)

/-- Result of the parser: `(True, forecast_value)` or `(False, message)`. -/
inductive ParseResult where
  | ok (forecast : JsonValue)
  | fail (msg : String)

/-- `get_forecast_url_from_points_response(points_json)` (lines 113-128).

The `try` block evaluates `json.loads(points_json)` and then
`data['properties']['forecast']`; the handler catches exactly
`(json.JSONDecodeError, KeyError)` and folds `str(e)` into the failure
message.  A `TypeError` from subscripting a non-dict value is *not* caught
and propagates (`Except.error`). -/
def get_forecast_url_from_points_response (loads : String → LoadsOutcome)
    (points_json : String) : Except PyExn ParseResult :=
  match loads points_json with
  | .decodeError m => .ok (.fail ("Error parsing Points API response: " ++ m))
  | .ok data =>
    match pySubscript data "properties" with
    | .error (.keyError k) => .ok (.fail ("Error parsing Points API response: " ++ pyStr (.keyError k)))
    | .error e => .error e
    | .ok props =>
      match pySubscript props "forecast" with
      | .error (.keyError k) => .ok (.fail ("Error parsing Points API response: " ++ pyStr (.keyError k)))
      | .error e => .error e
      | .ok v => .ok (.ok v)

/-- Discriminator: did the parser *return* a failure pair (rather than
succeed or raise)? -/
def parserReturnsFailure : Except PyExn ParseResult → Bool
  | .ok (.fail _) => true
  | _ => false

/-! ### 4.5 Summary Generator: `process_weather_response` -/

/-- The prompt built on lines 141-155. -/
def summaryPrompt (raw_json location : String) : String :=
  "\nYou are a weather information specialist. I have raw National Weather Service forecast data for \"" ++ location ++ "\" that needs to be converted into a clear, helpful summary for a general audience.\n\nRaw NWS API Response:\n" ++ raw_json ++ "\n\nPlease create a weather summary that includes:\n1. A brief introduction with the location\n2. Current conditions and today's forecast\n3. The next 2-3 days outlook with key details (temperature, precipitation, wind)\n4. Any notable weather patterns or alerts\n5. Format the response to be easy to read and understand\n\nMake it informative and practical for someone planning their activities. Focus on being helpful and clear.\n"

/-- `process_weather_response(raw_json, location)` (lines 130-160): one more
model call with the summary prompt; the `(success, response)` pair is
returned unchanged. -/
def process_weather_response (client : Except String Unit)
    (converse : String → ConverseOutcome) (raw_json location : String) :
    Except String (Bool × String) :=
  call_claude_sonnet client converse (summaryPrompt raw_json location)

mutual

/-- Python `repr` of a value parsed from JSON (used by the orchestrator's
f-string when the forecast field is a list). -/
def pyRepr : JsonValue → String
  | .null => "None"
  | .bool true => "True"
  | .bool false => "False"
  | .num lit => lit
  | .str s => "'" ++ s ++ "'"
  | .arr xs => "[" ++ pyReprItems xs ++ "]"
  | .obj fs => "\x7b" ++ pyReprFields fs ++ "\x7d"

def pyReprItems : List JsonValue → String
  | [] => ""
  | [v] => pyRepr v
  | v :: vs => pyRepr v ++ ", " ++ pyReprItems vs

def pyReprFields : List (String × JsonValue) → String
  | [] => ""
  | [(k, v)] => "'" ++ k ++ "': " ++ pyRepr v
  | (k, v) :: fs => "'" ++ k ++ "': " ++ pyRepr v ++ ", " ++ pyReprFields fs

end

/-! ### 4.6 Orchestrator: `run_weather_agent` -/

/-- Observable effects of one run: lines written to standard output, model
service calls, and fetch-command invocations. -/
inductive Event where
  | printLine (s : String)
  | modelCall (prompt : String)
  | curlCall (argv : List String) (timeoutSec : Nat)

/-- How the interactive loop ends: the explicit quit command, end of the
input stream (`input()` raising `EOFError`), or an uncaught exception
escaping an iteration. -/
inductive LoopExit where
  | quitCmd
  | eof
  | crash (msg : String)

/-- The environment the script runs against: the outcome of
`boto3.client(...)` construction, of `bedrock.converse` per prompt, of
`subprocess.run` per argv/timeout, and of `json.loads` per document. -/
structure World where
  client : Except String Unit
  converse : String → ConverseOutcome
  run : List String → Nat → CurlOutcome
  loads : String → LoadsOutcome

/-- The `input(...)` prompt (line 171). -/
def inputPrompt : String := "\nEnter a location name or description (or 'quit' to exit): "

/-- The quit commands recognised on line 173. -/
def quitWords : List String := ["quit", "exit", "q"]

/-- `"-" * 40` (line 182). -/
def dashLine : String := ⟨List.replicate 40 '-'⟩

/-- `"=" * 60` (lines 168, 231, 233). -/
def sepLine : String := ⟨List.replicate 60 '='⟩

def startAnalysisMsg (location : String) : String :=
  "\nStarting weather analysis for '" ++ location ++ "'..."

def analyzingMsg (location : String) : String :=
  "AI is analyzing '" ++ location ++ "' and generating weather API calls..."

def successUrlMsg (points_url : String) : String :=
  "[SUCCESS] Generated Points API URL: " ++ points_url

def forecastUrlMsg (forecast_url : String) : String :=
  "[SUCCESS] Forecast URL: " ++ forecast_url.take 60 ++ "..."

def receivedMsg (forecast_response : String) : String :=
  "[SUCCESS] Received " ++ toString forecast_response.length ++ " characters of forecast data"

def completeMsg (location : String) : String :=
  "\n[SUCCESS] Weather analysis complete for '" ++ location ++ "'!"

/-- Step 1 progress lines (lines 181-184 and the print inside
`generate_weather_api_calls`, line 101), printed before the model call. -/
def planPhaseEvents (location : String) : List Event :=
  [.printLine (startAnalysisMsg location), .printLine dashLine,
   .printLine "Step 1: AI Planning Phase", .printLine (analyzingMsg location)]

/-- Step 5 onward (lines 221-235): print the received-data line, make the
summary model call, and either print the error or print the framed summary. -/
def afterForecast (w : World) (location forecast_response : String) :
    List Event × Option String :=
  let es : List Event :=
    [.printLine (receivedMsg forecast_response), .printLine "\nStep 5: AI Analysis Phase",
     .printLine "AI is processing weather data and creating summary..."]
  match process_weather_response w.client w.converse forecast_response location with
  | .error e => (es, some e)
  | .ok (false, msg) =>
    (es ++ [.modelCall (summaryPrompt forecast_response location),
      .printLine ("[ERROR] Failed to process data: " ++ msg)], none)
  | .ok (true, summary) =>
    (es ++ [.modelCall (summaryPrompt forecast_response location),
      .printLine "\nStep 6: Weather Forecast", .printLine sepLine, .printLine summary,
      .printLine sepLine, .printLine (completeMsg location)], none)

/-- Step 4 (lines 213-219): fetch the forecast URL. -/
def afterForecastUrl (w : World) (location forecast_url : String) :
    List Event × Option String :=
  let es : List Event :=
    [.printLine "\nStep 4: Forecast API Execution",
     .printLine "Fetching weather forecast data...",
     .curlCall ["curl", "-s", forecast_url] 30]
  match execute_curl_command w.run forecast_url with
  | (true, forecast_response) =>
    let t := afterForecast w location forecast_response
    (es ++ t.1, t.2)
  | (false, msg) =>
    (es ++ [.printLine ("[ERROR] Failed to fetch forecast data: " ++ msg)], none)

/-- Step 3 (lines 204-211): extract the forecast URL from the points JSON.
An uncaught `TypeError` from the parser crashes the iteration.  When the
extracted value is not a string, the f-string slice `forecast_url[:60]` and
the subsequent `subprocess.run` argument check follow Python's dynamic
semantics: a list slices fine but is rejected (inside the wrapper's `try`)
as a command argument; a dict raises `TypeError` on the slice; other scalars
raise `TypeError` as unsubscriptable. -/
def afterPoints (w : World) (location points_response : String) :
    List Event × Option String :=
  let es : List Event :=
    [.printLine "[SUCCESS] Received points data", .printLine "\nStep 3: Extracting Forecast URL"]
  match get_forecast_url_from_points_response w.loads points_response with
  | .error e => (es, some (pyTracebackMsg e))
  | .ok (.fail msg) =>
    (es ++ [.printLine ("[ERROR] Failed to extract forecast URL: " ++ msg)], none)
  | .ok (.ok (.str forecast_url)) =>
    let t := afterForecastUrl w location forecast_url
    (es ++ [.printLine (forecastUrlMsg forecast_url)] ++ t.1, t.2)
  | .ok (.ok (.arr xs)) =>
    (es ++ [.printLine ("[SUCCESS] Forecast URL: " ++ pyRepr (.arr (xs.take 60)) ++ "..."),
      .printLine "\nStep 4: Forecast API Execution",
      .printLine "Fetching weather forecast data...",
      .printLine "[ERROR] Failed to fetch forecast data: Error executing curl: expected str, bytes or os.PathLike object, not 'list'"], none)
  | .ok (.ok (.obj _)) => (es, some "TypeError: unhashable type: 'slice'")
  | .ok (.ok _) => (es, some "TypeError: 'float' object is not subscriptable")

/-- Step 2 (lines 191-202): fetch the points URL. -/
def afterPlan (w : World) (location points_url : String) :
    List Event × Option String :=
  let es : List Event :=
    [.printLine (successUrlMsg points_url), .printLine "\nStep 2: Points API Execution",
     .printLine "Fetching location data from National Weather Service...",
     .curlCall ["curl", "-s", points_url] 30]
  match execute_curl_command w.run points_url with
  | (true, points_response) =>
    let t := afterPoints w location points_response
    (es ++ t.1, t.2)
  | (false, msg) =>
    (es ++ [.printLine ("[ERROR] Failed to fetch points data: " ++ msg)], none)

/-- Steps 1-6 for one non-empty, non-quit location (lines 181-235).  The
first component is the iteration's event trace; a `some` second component is
the message of an uncaught exception aborting the whole loop.  The model
call event is emitted only when client construction succeeded; `api_calls[0]`
on an empty list would raise `IndexError` (unreachable: planner success
always carries a one-element list). -/
def runPipeline (w : World) (location : String) : List Event × Option String :=
  match generate_weather_api_calls w.client w.converse location with
  | .error e => (planPhaseEvents location, some e)
  | .ok (.fail msg) =>
    (planPhaseEvents location ++ [.modelCall (planPrompt location),
      .printLine ("[ERROR] Failed to generate API calls: " ++ msg)], none)
  | .ok (.ok []) =>
    (planPhaseEvents location ++ [.modelCall (planPrompt location)],
     some "IndexError: list index out of range")
  | .ok (.ok (points_url :: _)) =>
    let t := afterPlan w location points_url
    (planPhaseEvents location ++ [.modelCall (planPrompt location)] ++ t.1, t.2)

/-- The `while True` loop of `run_weather_agent` (lines 170-235), driven by
the remaining lines of standard input.  Each iteration strips its input
line, recognises the quit words case-insensitively, re-prompts on empty
input, and otherwise runs the six-step pipeline; an uncaught exception ends
the process. -/
def agentLoop (w : World) : List String → List Event × LoopExit
  | [] => ([.printLine inputPrompt], .eof)
  | line :: rest =>
    if pyToLower (pyStrip line) ∈ quitWords then
      ([.printLine inputPrompt, .printLine "Thanks for using the Weather Agent!"], .quitCmd)
    else if pyStrip line = "" then
      (.printLine inputPrompt :: .printLine "[ERROR] Please enter a location name or description." ::
        (agentLoop w rest).1, (agentLoop w rest).2)
    else
      match (runPipeline w (pyStrip line)).2 with
      | some cmsg => (.printLine inputPrompt :: (runPipeline w (pyStrip line)).1, .crash cmsg)
      | none =>
        (.printLine inputPrompt :: ((runPipeline w (pyStrip line)).1 ++ (agentLoop w rest).1),
         (agentLoop w rest).2)

/-- The banner printed once on lines 166-168. -/
def bannerEvents : List Event :=
  [.printLine "Welcome to the Weather AI Agent!",
   .printLine "This agent uses Claude 4.5 Sonnet to help you get weather forecasts.",
   .printLine sepLine]

/-- `run_weather_agent()` (lines 162-235): banner, then the input loop. -/
def run_weather_agent (w : World) (stdinLines : List String) : List Event × LoopExit :=
  (bannerEvents ++ (agentLoop w stdinLines).1, (agentLoop w stdinLines).2)

/-- An event that contacts an external service (model call or fetch
command). -/
def isNetworkEvent : Event → Bool
  | .modelCall _ => true
  | .curlCall _ _ => true
  | .printLine _ => false

/-- A printed line that reports a step failure (starts with `[ERROR]`). -/
def isErrorPrint : Event → Bool
  | .printLine s => pyStartsWith s "[ERROR]"
  | _ => false

/-! ### Claim-level definitions and concrete environments -/

/-- The abort pattern of one orchestrator iteration: the iteration's events
follow the input prompt and the loop then continues with the remaining
input; the iteration makes exactly the network calls `net`, prints exactly
one `[ERROR]` line, and that line is its last event. -/
def iterationAborts (w : World) (line : String) (rest : List String)
    (net : List Event) (errLine : String) : Prop :=
  ∃ iter : List Event,
    agentLoop w (line :: rest) =
      (Event.printLine inputPrompt :: (iter ++ (agentLoop w rest).1), (agentLoop w rest).2)
    ∧ iter.filter isNetworkEvent = net
    ∧ (iter.filter isErrorPrint).length = 1
    ∧ iter.getLast? = some (.printLine errLine)

/-- A character allowed inside a decimal coordinate token. -/
def coordChar (c : Char) : Bool := c.isDigit || c == '.' || c == '-'

/-- The URL shape asserted by the specification ("must exactly match the
pattern `https://api.weather.gov/points/<lat>,<lon>` with no extra
characters").  This definition follows the spec's words, for comparison
with the code's check. -/
def specPointsUrlShape (url : String) : Prop :=
  ∃ lat lon : String, lat ≠ "" ∧ lon ≠ "" ∧
    (∀ c ∈ lat.data, coordChar c = true) ∧ (∀ c ∈ lon.data, coordChar c = true) ∧
    url = nwsPointsStart ++ lat ++ "," ++ lon

/-- Fixture: the model answers with a well-formed points URL. -/
def convSeattle : String → ConverseOutcome :=
  fun _ => .completed ["https://api.weather.gov/points/47.6062,-122.3321"]

/-- Fixture: the model answers with the bare pattern and nothing after it. -/
def convBareBase : String → ConverseOutcome :=
  fun _ => .completed ["https://api.weather.gov/points/"]

/-- Fixture: the model answers with a non-URL text carrying trailing
whitespace. -/
def convTrailingSpace : String → ConverseOutcome := fun _ => .completed ["x "]

/-- Fixture: the converse call raises. -/
def convRaise : String → ConverseOutcome := fun _ => .raise "ThrottlingException"

/-- Fixture: every fetch command exits nonzero with curl's resolver error. -/
def runResolveFail : List String → Nat → CurlOutcome :=
  fun _ _ => .completed 6 "" "curl: (6) Could not resolve host: api.weather.gov"

/-- Fixture: every fetch command hits the timeout. -/
def runTimeoutEnv : List String → Nat → CurlOutcome := fun _ _ => .timeout

/-- `json.loads` on the concrete documents used below, recorded per its
contract: `"[]"` parses to the empty list, `"{}"` to the empty object, and
`"not json"` raises `JSONDecodeError`. -/
def loadsFixture : String → LoadsOutcome := fun s =>
  if s = "[]" then .ok (.arr [])
  else if s = "{}" then .ok (.obj [])
  else .decodeError "Expecting value: line 1 column 1 (char 0)"

/-- A test environment: client construction succeeds, the model produces a
well-formed points URL, every fetch fails to resolve the host. -/
def wTest : World :=
  { client := .ok (), converse := convSeattle, run := runResolveFail, loads := loadsFixture }

/-! ### Helper lemmas on the string primitives -/

theorem dropWhile_eq_self_of (p : Char → Bool) (l : List Char)
    (h : ∀ c ∈ l, p c = false) : l.dropWhile p = l := by
  cases l with
  | nil => rfl
  | cons a l => rw [List.dropWhile_cons, h a (by simp)]; simp

theorem pyStrip_eq_self_of_no_space (s : String)
    (h : ∀ c ∈ s.data, pyIsSpace c = false) : pyStrip s = s := by
  have h1 : s.data.dropWhile pyIsSpace = s.data := dropWhile_eq_self_of _ _ h
  have h2 : s.data.reverse.dropWhile pyIsSpace = s.data.reverse :=
    dropWhile_eq_self_of _ _ (fun c hc => h c (List.mem_reverse.mp hc))
  show (⟨((s.data.dropWhile pyIsSpace).reverse.dropWhile pyIsSpace).reverse⟩ : String) = s
  rw [h1, h2, List.reverse_reverse]

theorem lowerChar_of_space (c : Char) (h : pyIsSpace c = true) : lowerChar c = c := by
  have hc : c = ' ' ∨ c = '\t' ∨ c = '\n' ∨ c = '\r' ∨ c = '\x0b' ∨ c = '\x0c' := by
    simpa [pyIsSpace, or_assoc] using h
  rcases hc with h | h | h | h | h | h <;> subst h <;> decide

theorem pyStrip_id_of_quitWord (line : String) (h : pyToLower line ∈ quitWords) :
    pyStrip line = line := by
  apply pyStrip_eq_self_of_no_space
  intro c hc
  cases hsp : pyIsSpace c with
  | false => rfl
  | true =>
    have hfix : lowerChar c = c := lowerChar_of_space c hsp
    have hmem : lowerChar c ∈ (pyToLower line).data := List.mem_map_of_mem _ hc
    have hall : ∀ t ∈ quitWords, ∀ x ∈ t.data, pyIsSpace x = false := by decide
    have hfalse : pyIsSpace (lowerChar c) = false := hall _ h _ hmem
    rw [hfix, hsp] at hfalse
    exact hfalse

theorem leadsWith_append (pat : List Char) :
    ∀ (l₁ l₂ : List Char), pat.length ≤ l₁.length →
      leadsWith pat (l₁ ++ l₂) = leadsWith pat l₁ := by
  induction pat with
  | nil => intro l₁ l₂ _; rfl
  | cons a as ih =>
    intro l₁ l₂ h
    cases l₁ with
    | nil => simp at h
    | cons b bs =>
      simp only [List.cons_append, leadsWith, List.append_eq]
      rw [ih bs l₂ (by simpa using h)]

theorem isErrorPrint_append (s t : String) (h : 7 ≤ s.length) :
    isErrorPrint (Event.printLine (s ++ t)) = isErrorPrint (Event.printLine s) := by
  show pyStartsWith (s ++ t) "[ERROR]" = pyStartsWith s "[ERROR]"
  show leadsWith ("[ERROR]").data (s.data ++ t.data) = leadsWith ("[ERROR]").data s.data
  exact leadsWith_append _ _ _ h

theorem leadsWith_refl (l : List Char) : leadsWith l l = true := by
  induction l with
  | nil => rfl
  | cons a as ih => simp [leadsWith, ih]

theorem occursIn_append_self (a b : List Char) : occursIn b (a ++ b) = true := by
  induction a with
  | nil =>
    cases b with
    | nil => rfl
    | cons x xs => simp [occursIn, leadsWith_refl]
  | cons x xs ih => simp [occursIn, ih]

/-! ### Classifying the printed lines -/

theorem seven_le_append_left (s t : String) (h : 7 ≤ s.length) : 7 ≤ (s ++ t).length := by
  rw [str_length_append]; omega

theorem isErrorPrint_lit_append (s : String) (b : Bool) (t : String)
    (hs : isErrorPrint (.printLine s) = b) (h7 : 7 ≤ s.length) :
    isErrorPrint (Event.printLine (s ++ t)) = b := by
  rw [isErrorPrint_append s t h7]; exact hs

theorem errFalse_start (loc : String) :
    isErrorPrint (.printLine (startAnalysisMsg loc)) = false :=
  isErrorPrint_lit_append _ _ _
    (isErrorPrint_lit_append _ _ _ (by decide) (by decide))
    (seven_le_append_left _ _ (by decide))

theorem errFalse_analyzing (loc : String) :
    isErrorPrint (.printLine (analyzingMsg loc)) = false :=
  isErrorPrint_lit_append _ _ _
    (isErrorPrint_lit_append _ _ _ (by decide) (by decide))
    (seven_le_append_left _ _ (by decide))

theorem errFalse_successUrl (u : String) :
    isErrorPrint (.printLine (successUrlMsg u)) = false :=
  isErrorPrint_lit_append _ _ _ (by decide) (by decide)

theorem errFalse_forecastUrl (f : String) :
    isErrorPrint (.printLine (forecastUrlMsg f)) = false :=
  isErrorPrint_lit_append _ _ _
    (isErrorPrint_lit_append _ _ _ (by decide) (by decide))
    (seven_le_append_left _ _ (by decide))

theorem errFalse_received (r : String) :
    isErrorPrint (.printLine (receivedMsg r)) = false :=
  isErrorPrint_lit_append _ _ _
    (isErrorPrint_lit_append _ _ _ (by decide) (by decide))
    (seven_le_append_left _ _ (by decide))

theorem errFalse_complete (loc : String) :
    isErrorPrint (.printLine (completeMsg loc)) = false :=
  isErrorPrint_lit_append _ _ _
    (isErrorPrint_lit_append _ _ _ (by decide) (by decide))
    (seven_le_append_left _ _ (by decide))

theorem errTrue_genFail (msg : String) :
    isErrorPrint (.printLine ("[ERROR] Failed to generate API calls: " ++ msg)) = true :=
  isErrorPrint_lit_append _ _ _ (by decide) (by decide)

theorem errTrue_pointsFail (msg : String) :
    isErrorPrint (.printLine ("[ERROR] Failed to fetch points data: " ++ msg)) = true :=
  isErrorPrint_lit_append _ _ _ (by decide) (by decide)

theorem errTrue_extractFail (msg : String) :
    isErrorPrint (.printLine ("[ERROR] Failed to extract forecast URL: " ++ msg)) = true :=
  isErrorPrint_lit_append _ _ _ (by decide) (by decide)

theorem errTrue_forecastFail (msg : String) :
    isErrorPrint (.printLine ("[ERROR] Failed to fetch forecast data: " ++ msg)) = true :=
  isErrorPrint_lit_append _ _ _ (by decide) (by decide)

theorem errTrue_processFail (msg : String) :
    isErrorPrint (.printLine ("[ERROR] Failed to process data: " ++ msg)) = true :=
  isErrorPrint_lit_append _ _ _ (by decide) (by decide)

theorem errFalse_dash : isErrorPrint (.printLine dashLine) = false := by decide

theorem errFalse_step1 : isErrorPrint (.printLine "Step 1: AI Planning Phase") = false := by
  decide

theorem errFalse_step2 : isErrorPrint (.printLine "\nStep 2: Points API Execution") = false := by
  decide

theorem errFalse_fetchPoints :
    isErrorPrint (.printLine "Fetching location data from National Weather Service...") = false := by
  decide

theorem errFalse_recvPoints : isErrorPrint (.printLine "[SUCCESS] Received points data") = false := by
  decide

theorem errFalse_step3 : isErrorPrint (.printLine "\nStep 3: Extracting Forecast URL") = false := by
  decide

theorem errFalse_step4 : isErrorPrint (.printLine "\nStep 4: Forecast API Execution") = false := by
  decide

theorem errFalse_fetchForecast :
    isErrorPrint (.printLine "Fetching weather forecast data...") = false := by decide

theorem errFalse_step5 : isErrorPrint (.printLine "\nStep 5: AI Analysis Phase") = false := by
  decide

theorem errFalse_processing :
    isErrorPrint (.printLine "AI is processing weather data and creating summary...") = false := by
  decide

/-! ### Computing the pipeline on the relevant branches -/

theorem generate_ok_of (conv : String → ConverseOutcome) (loc t : String) (ts : List String)
    (hconv : conv (planPrompt loc) = .completed (t :: ts))
    (hpre : pyStartsWith (pyStrip t) nwsPointsStart = true) :
    generate_weather_api_calls (.ok ()) conv loc = .ok (.ok [pyStrip t]) := by
  unfold generate_weather_api_calls call_claude_sonnet
  rw [hconv]
  simp [hpre]

theorem generate_fail_of (conv : String → ConverseOutcome) (loc t : String) (ts : List String)
    (hconv : conv (planPrompt loc) = .completed (t :: ts))
    (hpre : pyStartsWith (pyStrip t) nwsPointsStart = false) :
    generate_weather_api_calls (.ok ()) conv loc =
      .ok (.fail ("AI generated invalid URL: " ++ pyStrip t)) := by
  unfold generate_weather_api_calls call_claude_sonnet
  rw [hconv]
  simp [hpre]

theorem runPipeline_plan_fail (w : World) (loc msg : String)
    (h : generate_weather_api_calls w.client w.converse loc = .ok (.fail msg)) :
    runPipeline w loc =
      (planPhaseEvents loc ++ [.modelCall (planPrompt loc),
        .printLine ("[ERROR] Failed to generate API calls: " ++ msg)], none) := by
  unfold runPipeline
  rw [h]

theorem afterForecast_process_fail (w : World) (loc fresp msg : String)
    (hproc : process_weather_response w.client w.converse fresp loc = .ok (false, msg)) :
    afterForecast w loc fresp =
      ([.printLine (receivedMsg fresp), .printLine "\nStep 5: AI Analysis Phase",
        .printLine "AI is processing weather data and creating summary...",
        .modelCall (summaryPrompt fresp loc),
        .printLine ("[ERROR] Failed to process data: " ++ msg)], none) := by
  unfold afterForecast
  rw [hproc]
  rfl

theorem afterForecastUrl_fetch_fail (w : World) (loc furl msg : String)
    (hfcurl : execute_curl_command w.run furl = (false, msg)) :
    afterForecastUrl w loc furl =
      ([.printLine "\nStep 4: Forecast API Execution",
        .printLine "Fetching weather forecast data...",
        .curlCall ["curl", "-s", furl] 30,
        .printLine ("[ERROR] Failed to fetch forecast data: " ++ msg)], none) := by
  unfold afterForecastUrl
  rw [hfcurl]
  rfl

theorem afterForecastUrl_process_fail (w : World) (loc furl fresp msg : String)
    (hfcurl : execute_curl_command w.run furl = (true, fresp))
    (hproc : process_weather_response w.client w.converse fresp loc = .ok (false, msg)) :
    afterForecastUrl w loc furl =
      ([.printLine "\nStep 4: Forecast API Execution",
        .printLine "Fetching weather forecast data...",
        .curlCall ["curl", "-s", furl] 30,
        .printLine (receivedMsg fresp), .printLine "\nStep 5: AI Analysis Phase",
        .printLine "AI is processing weather data and creating summary...",
        .modelCall (summaryPrompt fresp loc),
        .printLine ("[ERROR] Failed to process data: " ++ msg)], none) := by
  unfold afterForecastUrl
  rw [hfcurl]
  simp [afterForecast_process_fail w loc fresp msg hproc]

theorem afterPoints_extract_fail (w : World) (loc presp msg : String)
    (hparse : get_forecast_url_from_points_response w.loads presp = .ok (.fail msg)) :
    afterPoints w loc presp =
      ([.printLine "[SUCCESS] Received points data", .printLine "\nStep 3: Extracting Forecast URL",
        .printLine ("[ERROR] Failed to extract forecast URL: " ++ msg)], none) := by
  unfold afterPoints
  rw [hparse]
  rfl

theorem afterPoints_forecast_fail (w : World) (loc presp furl msg : String)
    (hparse : get_forecast_url_from_points_response w.loads presp = .ok (.ok (.str furl)))
    (hfcurl : execute_curl_command w.run furl = (false, msg)) :
    afterPoints w loc presp =
      ([.printLine "[SUCCESS] Received points data", .printLine "\nStep 3: Extracting Forecast URL",
        .printLine (forecastUrlMsg furl),
        .printLine "\nStep 4: Forecast API Execution",
        .printLine "Fetching weather forecast data...",
        .curlCall ["curl", "-s", furl] 30,
        .printLine ("[ERROR] Failed to fetch forecast data: " ++ msg)], none) := by
  unfold afterPoints
  rw [hparse]
  simp [afterForecastUrl_fetch_fail w loc furl msg hfcurl]

theorem afterPoints_process_fail (w : World) (loc presp furl fresp msg : String)
    (hparse : get_forecast_url_from_points_response w.loads presp = .ok (.ok (.str furl)))
    (hfcurl : execute_curl_command w.run furl = (true, fresp))
    (hproc : process_weather_response w.client w.converse fresp loc = .ok (false, msg)) :
    afterPoints w loc presp =
      ([.printLine "[SUCCESS] Received points data", .printLine "\nStep 3: Extracting Forecast URL",
        .printLine (forecastUrlMsg furl),
        .printLine "\nStep 4: Forecast API Execution",
        .printLine "Fetching weather forecast data...",
        .curlCall ["curl", "-s", furl] 30,
        .printLine (receivedMsg fresp), .printLine "\nStep 5: AI Analysis Phase",
        .printLine "AI is processing weather data and creating summary...",
        .modelCall (summaryPrompt fresp loc),
        .printLine ("[ERROR] Failed to process data: " ++ msg)], none) := by
  unfold afterPoints
  rw [hparse]
  simp [afterForecastUrl_process_fail w loc furl fresp msg hfcurl hproc]

theorem afterPlan_fetch_fail (w : World) (loc u msg : String)
    (hcurl : execute_curl_command w.run u = (false, msg)) :
    afterPlan w loc u =
      ([.printLine (successUrlMsg u), .printLine "\nStep 2: Points API Execution",
        .printLine "Fetching location data from National Weather Service...",
        .curlCall ["curl", "-s", u] 30,
        .printLine ("[ERROR] Failed to fetch points data: " ++ msg)], none) := by
  unfold afterPlan
  rw [hcurl]
  rfl

theorem afterPlan_cont (w : World) (loc u presp : String)
    (hcurl : execute_curl_command w.run u = (true, presp)) :
    afterPlan w loc u =
      ([.printLine (successUrlMsg u), .printLine "\nStep 2: Points API Execution",
        .printLine "Fetching location data from National Weather Service...",
        .curlCall ["curl", "-s", u] 30] ++ (afterPoints w loc presp).1,
       (afterPoints w loc presp).2) := by
  unfold afterPlan
  rw [hcurl]

theorem runPipeline_cont (w : World) (loc u : String)
    (hplan : generate_weather_api_calls w.client w.converse loc = .ok (.ok [u])) :
    runPipeline w loc =
      (planPhaseEvents loc ++ [.modelCall (planPrompt loc)] ++ (afterPlan w loc u).1,
       (afterPlan w loc u).2) := by
  unfold runPipeline
  rw [hplan]

theorem runPipeline_points_fail (w : World) (loc u msg : String)
    (hplan : generate_weather_api_calls w.client w.converse loc = .ok (.ok [u]))
    (hcurl : execute_curl_command w.run u = (false, msg)) :
    runPipeline w loc =
      (planPhaseEvents loc ++
        [.modelCall (planPrompt loc),
         .printLine (successUrlMsg u), .printLine "\nStep 2: Points API Execution",
         .printLine "Fetching location data from National Weather Service...",
         .curlCall ["curl", "-s", u] 30,
         .printLine ("[ERROR] Failed to fetch points data: " ++ msg)], none) := by
  rw [runPipeline_cont w loc u hplan, afterPlan_fetch_fail w loc u msg hcurl]
  simp

theorem runPipeline_extract_fail (w : World) (loc u presp msg : String)
    (hplan : generate_weather_api_calls w.client w.converse loc = .ok (.ok [u]))
    (hcurl : execute_curl_command w.run u = (true, presp))
    (hparse : get_forecast_url_from_points_response w.loads presp = .ok (.fail msg)) :
    runPipeline w loc =
      (planPhaseEvents loc ++
        [.modelCall (planPrompt loc),
         .printLine (successUrlMsg u), .printLine "\nStep 2: Points API Execution",
         .printLine "Fetching location data from National Weather Service...",
         .curlCall ["curl", "-s", u] 30,
         .printLine "[SUCCESS] Received points data", .printLine "\nStep 3: Extracting Forecast URL",
         .printLine ("[ERROR] Failed to extract forecast URL: " ++ msg)], none) := by
  rw [runPipeline_cont w loc u hplan, afterPlan_cont w loc u presp hcurl,
    afterPoints_extract_fail w loc presp msg hparse]
  simp

theorem runPipeline_forecast_fail (w : World) (loc u presp furl msg : String)
    (hplan : generate_weather_api_calls w.client w.converse loc = .ok (.ok [u]))
    (hcurl : execute_curl_command w.run u = (true, presp))
    (hparse : get_forecast_url_from_points_response w.loads presp = .ok (.ok (.str furl)))
    (hfcurl : execute_curl_command w.run furl = (false, msg)) :
    runPipeline w loc =
      (planPhaseEvents loc ++
        [.modelCall (planPrompt loc),
         .printLine (successUrlMsg u), .printLine "\nStep 2: Points API Execution",
         .printLine "Fetching location data from National Weather Service...",
         .curlCall ["curl", "-s", u] 30,
         .printLine "[SUCCESS] Received points data", .printLine "\nStep 3: Extracting Forecast URL",
         .printLine (forecastUrlMsg furl),
         .printLine "\nStep 4: Forecast API Execution",
         .printLine "Fetching weather forecast data...",
         .curlCall ["curl", "-s", furl] 30,
         .printLine ("[ERROR] Failed to fetch forecast data: " ++ msg)], none) := by
  rw [runPipeline_cont w loc u hplan, afterPlan_cont w loc u presp hcurl,
    afterPoints_forecast_fail w loc presp furl msg hparse hfcurl]
  simp

theorem runPipeline_process_fail (w : World) (loc u presp furl fresp msg : String)
    (hplan : generate_weather_api_calls w.client w.converse loc = .ok (.ok [u]))
    (hcurl : execute_curl_command w.run u = (true, presp))
    (hparse : get_forecast_url_from_points_response w.loads presp = .ok (.ok (.str furl)))
    (hfcurl : execute_curl_command w.run furl = (true, fresp))
    (hproc : process_weather_response w.client w.converse fresp loc = .ok (false, msg)) :
    runPipeline w loc =
      (planPhaseEvents loc ++
        [.modelCall (planPrompt loc),
         .printLine (successUrlMsg u), .printLine "\nStep 2: Points API Execution",
         .printLine "Fetching location data from National Weather Service...",
         .curlCall ["curl", "-s", u] 30,
         .printLine "[SUCCESS] Received points data", .printLine "\nStep 3: Extracting Forecast URL",
         .printLine (forecastUrlMsg furl),
         .printLine "\nStep 4: Forecast API Execution",
         .printLine "Fetching weather forecast data...",
         .curlCall ["curl", "-s", furl] 30,
         .printLine (receivedMsg fresp), .printLine "\nStep 5: AI Analysis Phase",
         .printLine "AI is processing weather data and creating summary...",
         .modelCall (summaryPrompt fresp loc),
         .printLine ("[ERROR] Failed to process data: " ++ msg)], none) := by
  rw [runPipeline_cont w loc u hplan, afterPlan_cont w loc u presp hcurl,
    afterPoints_process_fail w loc presp furl fresp msg hparse hfcurl hproc]
  simp

theorem agentLoop_pipeline (w : World) (line : String) (rest : List String)
    (hq : pyToLower (pyStrip line) ∉ quitWords) (hne : pyStrip line ≠ "")
    (es : List Event)
    (hrp : runPipeline w (pyStrip line) = (es, none)) :
    agentLoop w (line :: rest) =
      (Event.printLine inputPrompt :: (es ++ (agentLoop w rest).1), (agentLoop w rest).2) := by
  conv_lhs => rw [agentLoop]
  rw [if_neg hq, if_neg hne, hrp]

/-! ### Claims about the Planner -/

/-- C1 (amended): whenever the Planner succeeds it returns a single-element
list whose element is the trimmed model output, and that element starts
with `https://api.weather.gov/points/`; no further validation of the
characters after that fixed part is performed. -/
theorem planner_success_url_starts_with_base (client : Except String Unit)
    (converse : String → ConverseOutcome) (location : String) (calls : List String)
    (h : generate_weather_api_calls client converse location = .ok (.ok calls)) :
    ∃ url, calls = [url] ∧ pyStartsWith url nwsPointsStart = true := by
  unfold generate_weather_api_calls call_claude_sonnet at h
  cases client with
  | error e => simp at h
  | ok u =>
    rcases hc : converse (planPrompt location) with ts | e
    · rw [hc] at h
      cases ts with
      | nil => simp at h
      | cons t ts' =>
        by_cases hpre : pyStartsWith (pyStrip t) nwsPointsStart = true
        · simp only [hpre, if_true] at h
          simp at h
          exact ⟨pyStrip t, h.symm, hpre⟩
        · rw [Bool.not_eq_true] at hpre
          simp [hpre] at h
    · rw [hc] at h
      simp at h

/-- C1 witness: a run in which the Planner succeeds, instantiating the
amended claim. -/
theorem planner_success_url_starts_with_base_witness :
    ∃ url, ["https://api.weather.gov/points/47.6062,-122.3321"] = [url] ∧
      pyStartsWith url nwsPointsStart = true :=
  planner_success_url_starts_with_base (.ok ()) convSeattle "Seattle"
    ["https://api.weather.gov/points/47.6062,-122.3321"] (by rfl)

/-- C1 counterexample: the model output `https://api.weather.gov/points/`
(nothing after the fixed part) passes the code's check, so the Planner
succeeds with a URL that does not match the spec's
`https://api.weather.gov/points/<lat>,<lon>` shape. -/
theorem planner_accepts_bare_points_url :
    generate_weather_api_calls (.ok ()) convBareBase "Seattle" =
      .ok (.ok ["https://api.weather.gov/points/"])
    ∧ ¬ specPointsUrlShape "https://api.weather.gov/points/" := by
  constructor
  · rfl
  · rintro ⟨lat, lon, -, -, -, -, he⟩
    have hl := congrArg String.length he
    rw [str_length_append, str_length_append, str_length_append] at hl
    have h1 : ("https://api.weather.gov/points/" : String).length = 31 := by decide
    have h2 : nwsPointsStart.length = 31 := by decide
    have h3 : ("," : String).length = 1 := by decide
    rw [h1, h2, h3] at hl
    omega

/-- C3 (amended): when the trimmed model output lacks the required start
`https://api.weather.gov/points/`, the Planner fails and its message embeds
the *trimmed* model output verbatim (hence the raw output itself whenever
the raw output carries no leading or trailing whitespace). -/
theorem planner_fail_embeds_trimmed_output (converse : String → ConverseOutcome)
    (location t : String) (ts : List String)
    (hconv : converse (planPrompt location) = .completed (t :: ts))
    (hpre : pyStartsWith (pyStrip t) nwsPointsStart = false) :
    generate_weather_api_calls (.ok ()) converse location =
      .ok (.fail ("AI generated invalid URL: " ++ pyStrip t))
    ∧ occursIn (pyStrip t).data ("AI generated invalid URL: " ++ pyStrip t).data = true := by
  refine ⟨generate_fail_of converse location t ts hconv hpre, ?_⟩
  rw [data_append]
  exact occursIn_append_self _ _

/-- C3 witness: a concrete mismatching model output, instantiating the
amended claim. -/
theorem planner_fail_embeds_trimmed_output_witness :
    generate_weather_api_calls (.ok ()) convTrailingSpace "Seattle" =
      .ok (.fail ("AI generated invalid URL: " ++ pyStrip "x "))
    ∧ occursIn (pyStrip "x ").data
        ("AI generated invalid URL: " ++ pyStrip "x ").data = true :=
  planner_fail_embeds_trimmed_output convTrailingSpace "Seattle" "x " [] (by rfl) (by rfl)

/-- C3 counterexample: for the raw model output `"x "` (trailing space) the
Planner fails, but its message embeds the stripped text `"x"`, and the raw
output `"x "` does not occur verbatim anywhere in the message. -/
theorem planner_fail_message_not_raw :
    generate_weather_api_calls (.ok ()) convTrailingSpace "Seattle" =
      .ok (.fail "AI generated invalid URL: x")
    ∧ occursIn ("x " : String).data ("AI generated invalid URL: x" : String).data = false :=
  ⟨rfl, rfl⟩

/-! ### Claims about the Response Parser -/

/-- C2 (amended): on a well-formed JSON document whose top level is an
object, a missing `properties` key — or, when `properties` is itself an
object, a missing `forecast` key — makes the parser return failure with the
missing key named in the message; but on a document that is not an object
(here: a list) the subscript raises an uncaught `TypeError` instead of
returning failure. -/
theorem parser_missing_key_behaviour (loads : String → LoadsOutcome) (s : String) :
    (∀ fields, loads s = .ok (.obj fields) → dictLookup fields "properties" = none →
      get_forecast_url_from_points_response loads s =
        .ok (.fail "Error parsing Points API response: 'properties'"))
    ∧ (∀ fields pf, loads s = .ok (.obj fields) →
        dictLookup fields "properties" = some (.obj pf) → dictLookup pf "forecast" = none →
        get_forecast_url_from_points_response loads s =
          .ok (.fail "Error parsing Points API response: 'forecast'"))
    ∧ (∀ xs, loads s = .ok (.arr xs) →
        get_forecast_url_from_points_response loads s =
          .error (.typeError "list indices must be integers or slices, not 'str'")) := by
  refine ⟨?_, ?_, ?_⟩
  · intro fields hl hd
    unfold get_forecast_url_from_points_response
    rw [hl]
    simp [pySubscript, hd, pyStr]
  · intro fields pf hl hd1 hd2
    unfold get_forecast_url_from_points_response
    rw [hl]
    simp [pySubscript, hd1, hd2, pyStr]
  · intro xs hl
    unfold get_forecast_url_from_points_response
    rw [hl]
    simp [pySubscript]

/-- C2 witness: the document `"{}"` (an object with no `properties` key)
makes the parser fail naming the missing key. -/
theorem parser_missing_key_behaviour_witness :
    get_forecast_url_from_points_response loadsFixture "{}" =
      .ok (.fail "Error parsing Points API response: 'properties'") :=
  (parser_missing_key_behaviour loadsFixture "{}").1 [] (by rfl) (by rfl)

/-- C2 counterexample: the document `"[]"` is well-formed JSON in which
`properties.forecast` is absent, yet the parser raises an uncaught
`TypeError` (only `JSONDecodeError` and `KeyError` are caught) instead of
returning a failure result. -/
theorem parser_raises_on_nonobject_document :
    get_forecast_url_from_points_response loadsFixture "[]" =
      .error (.typeError "list indices must be integers or slices, not 'str'")
    ∧ parserReturnsFailure (get_forecast_url_from_points_response loadsFixture "[]") = false :=
  ⟨rfl, rfl⟩

/-- C4: on any input whose parse raises `JSONDecodeError` (per its contract,
exactly the syntactically invalid documents), the parser returns a failure
carrying the decode-error message, and never lets an error escape. -/
theorem parser_decode_error (loads : String → LoadsOutcome) (s m : String)
    (h : loads s = .decodeError m) :
    get_forecast_url_from_points_response loads s =
      .ok (.fail ("Error parsing Points API response: " ++ m))
    ∧ ∀ e, get_forecast_url_from_points_response loads s ≠ .error e := by
  have h1 : get_forecast_url_from_points_response loads s =
      .ok (.fail ("Error parsing Points API response: " ++ m)) := by
    unfold get_forecast_url_from_points_response
    rw [h]
  refine ⟨h1, fun e hc => ?_⟩
  rw [h1] at hc
  exact Except.noConfusion hc

/-- C4 witness: the string `"not json"` is not valid JSON; the parser
returns the decode-error failure. -/
theorem parser_decode_error_witness :
    get_forecast_url_from_points_response loadsFixture "not json" =
      .ok (.fail ("Error parsing Points API response: " ++
        "Expecting value: line 1 column 1 (char 0)"))
    ∧ ∀ e, get_forecast_url_from_points_response loadsFixture "not json" ≠ .error e :=
  parser_decode_error loadsFixture "not json" "Expecting value: line 1 column 1 (char 0)" (by rfl)

/-! ### Claims about the Command Execution wrapper and the model client -/

/-- C5: the wrapper returns `(true, stdout)` exactly when the fetch command
exits with status zero; `(false, stderr-derived message)` on nonzero exit;
`(false, timeout message)` when the 30-second timeout elapses; and
`(false, generic message)` on any other invocation error. -/
theorem execute_curl_command_spec (run : List String → Nat → CurlOutcome) (url : String) :
    (∀ out err, run ["curl", "-s", url] 30 = .completed 0 out err →
      execute_curl_command run url = (true, out))
    ∧ (∀ rc out err, run ["curl", "-s", url] 30 = .completed rc out err → rc ≠ 0 →
      execute_curl_command run url = (false, "Curl command failed: " ++ err))
    ∧ (run ["curl", "-s", url] 30 = .timeout →
      execute_curl_command run url = (false, "Request timed out after 30 seconds"))
    ∧ (∀ e, run ["curl", "-s", url] 30 = .raise e →
      execute_curl_command run url = (false, "Error executing curl: " ++ e))
    ∧ (∀ out, execute_curl_command run url = (true, out) →
      ∃ err, run ["curl", "-s", url] 30 = .completed 0 out err) := by
  refine ⟨?_, ?_, ?_, ?_, ?_⟩
  · intro out err h
    unfold execute_curl_command
    rw [h]
    simp
  · intro rc out err h hrc
    unfold execute_curl_command
    rw [h]
    simp [hrc]
  · intro h
    unfold execute_curl_command
    rw [h]
  · intro e h
    unfold execute_curl_command
    rw [h]
  · intro out h
    unfold execute_curl_command at h
    cases hr : run ["curl", "-s", url] 30 with
    | completed rc o e =>
      rw [hr] at h
      by_cases hrc : rc = 0
      · subst hrc
        simp at h
        subst h
        exact ⟨e, rfl⟩
      · simp [hrc] at h
    | timeout =>
      rw [hr] at h
      simp at h
    | raise e =>
      rw [hr] at h
      simp at h

/-- C5 witness: a timed-out fetch yields the timeout failure message. -/
theorem execute_curl_command_spec_witness :
    execute_curl_command runTimeoutEnv "https://api.weather.gov/points/47.6062,-122.3321" =
      (false, "Request timed out after 30 seconds") :=
  (execute_curl_command_spec runTimeoutEnv
    "https://api.weather.gov/points/47.6062,-122.3321").2.2.1 (by rfl)

/-- C6 (amended): every exception raised *inside* the `try` block — the
remote `converse` call raising, or the extraction of the first content
element failing — is caught and converted to a `(False, diagnostic)` tuple,
and success returns `(True, first content element's text)`; but an
exception raised while constructing the service client occurs *before* the
`try` block and propagates uncaught. -/
theorem call_claude_sonnet_error_containment (converse : String → ConverseOutcome)
    (prompt : String) :
    (∀ e, converse prompt = .raise e →
      call_claude_sonnet (.ok ()) converse prompt =
        .ok (false, "Error calling Claude: " ++ e))
    ∧ (converse prompt = .completed [] →
      call_claude_sonnet (.ok ()) converse prompt =
        .ok (false, "Error calling Claude: list index out of range"))
    ∧ (∀ t ts, converse prompt = .completed (t :: ts) →
      call_claude_sonnet (.ok ()) converse prompt = .ok (true, t))
    ∧ (∀ e, call_claude_sonnet (.error e) converse prompt = .error e) := by
  refine ⟨?_, ?_, ?_, ?_⟩
  · intro e h
    unfold call_claude_sonnet
    rw [h]
  · intro h
    unfold call_claude_sonnet
    rw [h]
  · intro t ts h
    unfold call_claude_sonnet
    rw [h]
  · intro e
    rfl

/-- C6 witness: a raising `converse` call is converted to a failure tuple. -/
theorem call_claude_sonnet_error_containment_witness :
    call_claude_sonnet (.ok ()) convRaise "any prompt" =
      .ok (false, "Error calling Claude: " ++ "ThrottlingException") :=
  (call_claude_sonnet_error_containment convRaise "any prompt").1 "ThrottlingException" (by rfl)

/-- C6 counterexample: an exception during `boto3.client(...)` construction
propagates out of `call_claude_sonnet` instead of being converted into a
`(False, diagnostic)` tuple. -/
theorem client_construction_error_propagates :
    call_claude_sonnet (.error "Unable to locate credentials") convSeattle "any prompt" =
      .error "Unable to locate credentials"
    ∧ returnsFailureTuple
        (call_claude_sonnet (.error "Unable to locate credentials") convSeattle "any prompt") =
        false :=
  ⟨rfl, rfl⟩

/-! ### Claims about the Orchestrator -/

theorem agentLoop_pipeline_crash (w : World) (line : String) (rest : List String)
    (hq : pyToLower (pyStrip line) ∉ quitWords) (hne : pyStrip line ≠ "")
    (es : List Event) (cmsg : String)
    (hrp : runPipeline w (pyStrip line) = (es, some cmsg)) :
    agentLoop w (line :: rest) = (Event.printLine inputPrompt :: es, .crash cmsg) := by
  conv_lhs => rw [agentLoop]
  rw [if_neg hq, if_neg hne, hrp]

theorem modelCall_mem_runPipeline (w : World) (loc : String) (hcl : w.client = .ok ()) :
    Event.modelCall (planPrompt loc) ∈ (runPipeline w loc).1 := by
  cases hg : generate_weather_api_calls w.client w.converse loc with
  | error e =>
    exfalso
    unfold generate_weather_api_calls call_claude_sonnet at hg
    rw [hcl] at hg
    cases hc : w.converse (planPrompt loc) with
    | raise m =>
      rw [hc] at hg
      simp at hg
    | completed ts =>
      rw [hc] at hg
      cases ts with
      | nil => simp at hg
      | cons t ts' =>
        by_cases hp : pyStartsWith (pyStrip t) nwsPointsStart = true
        · simp [hp] at hg
        · rw [Bool.not_eq_true] at hp
          simp [hp] at hg
  | ok pr =>
    unfold runPipeline
    rw [hg]
    cases pr with
    | fail m => simp
    | ok calls =>
      cases calls with
      | nil => simp
      | cons u us => simp

theorem errFalse_modelCall (p : String) : isErrorPrint (.modelCall p) = false := rfl

theorem errFalse_curlCall (a : List String) (n : Nat) : isErrorPrint (.curlCall a n) = false := rfl

theorem getLast?_append_some {α : Type} (l₁ l₂ : List α) (a : α)
    (h : l₂.getLast? = some a) : (l₁ ++ l₂).getLast? = some a := by
  rw [List.getLast?_append, h]
  rfl

/-- C7: within one iteration, a failure returned by any pipeline step makes
the Orchestrator print a single `[ERROR]` line as the iteration's last
event and return to awaiting input (the loop proceeds with the remaining
input), invoking no later pipeline step: in each case the iteration's
network calls are exactly the ones made up to and including the failing
step.  In particular a failed points fetch means no forecast fetch and no
summarization model call. -/
theorem orchestrator_aborts_on_step_failure (w : World) (line : String) (rest : List String)
    (hne : pyStrip line ≠ "") (hnq : pyToLower (pyStrip line) ∉ quitWords) :
    (∀ msg, generate_weather_api_calls w.client w.converse (pyStrip line) = .ok (.fail msg) →
      iterationAborts w line rest [.modelCall (planPrompt (pyStrip line))]
        ("[ERROR] Failed to generate API calls: " ++ msg))
    ∧ (∀ u msg,
        generate_weather_api_calls w.client w.converse (pyStrip line) = .ok (.ok [u]) →
        execute_curl_command w.run u = (false, msg) →
      iterationAborts w line rest
        [.modelCall (planPrompt (pyStrip line)), .curlCall ["curl", "-s", u] 30]
        ("[ERROR] Failed to fetch points data: " ++ msg))
    ∧ (∀ u presp msg,
        generate_weather_api_calls w.client w.converse (pyStrip line) = .ok (.ok [u]) →
        execute_curl_command w.run u = (true, presp) →
        get_forecast_url_from_points_response w.loads presp = .ok (.fail msg) →
      iterationAborts w line rest
        [.modelCall (planPrompt (pyStrip line)), .curlCall ["curl", "-s", u] 30]
        ("[ERROR] Failed to extract forecast URL: " ++ msg))
    ∧ (∀ u presp furl msg,
        generate_weather_api_calls w.client w.converse (pyStrip line) = .ok (.ok [u]) →
        execute_curl_command w.run u = (true, presp) →
        get_forecast_url_from_points_response w.loads presp = .ok (.ok (.str furl)) →
        execute_curl_command w.run furl = (false, msg) →
      iterationAborts w line rest
        [.modelCall (planPrompt (pyStrip line)), .curlCall ["curl", "-s", u] 30,
         .curlCall ["curl", "-s", furl] 30]
        ("[ERROR] Failed to fetch forecast data: " ++ msg))
    ∧ (∀ u presp furl fresp msg,
        generate_weather_api_calls w.client w.converse (pyStrip line) = .ok (.ok [u]) →
        execute_curl_command w.run u = (true, presp) →
        get_forecast_url_from_points_response w.loads presp = .ok (.ok (.str furl)) →
        execute_curl_command w.run furl = (true, fresp) →
        process_weather_response w.client w.converse fresp (pyStrip line) = .ok (false, msg) →
      iterationAborts w line rest
        [.modelCall (planPrompt (pyStrip line)), .curlCall ["curl", "-s", u] 30,
         .curlCall ["curl", "-s", furl] 30, .modelCall (summaryPrompt fresp (pyStrip line))]
        ("[ERROR] Failed to process data: " ++ msg)) := by
  refine ⟨?_, ?_, ?_, ?_, ?_⟩
  · intro msg h
    refine ⟨_, agentLoop_pipeline w line rest hnq hne _ (runPipeline_plan_fail w _ msg h), ?_, ?_, ?_⟩
    · simp [planPhaseEvents, List.filter_append, List.filter_cons, List.filter_nil, isNetworkEvent]
    · simp [planPhaseEvents, List.filter_append, List.filter_cons, List.filter_nil,
        errFalse_start, errFalse_dash, errFalse_step1, errFalse_analyzing,
        errFalse_modelCall, errTrue_genFail]
    · exact getLast?_append_some _ _ _ (by rfl)
  · intro u msg hplan hcurl
    refine ⟨_, agentLoop_pipeline w line rest hnq hne _
      (runPipeline_points_fail w _ u msg hplan hcurl), ?_, ?_, ?_⟩
    · simp [planPhaseEvents, List.filter_append, List.filter_cons, List.filter_nil, isNetworkEvent]
    · simp [planPhaseEvents, List.filter_append, List.filter_cons, List.filter_nil,
        errFalse_start, errFalse_dash, errFalse_step1, errFalse_analyzing,
        errFalse_modelCall, errFalse_curlCall, errFalse_successUrl, errFalse_step2,
        errFalse_fetchPoints, errTrue_pointsFail]
    · exact getLast?_append_some _ _ _ (by rfl)
  · intro u presp msg hplan hcurl hparse
    refine ⟨_, agentLoop_pipeline w line rest hnq hne _
      (runPipeline_extract_fail w _ u presp msg hplan hcurl hparse), ?_, ?_, ?_⟩
    · simp [planPhaseEvents, List.filter_append, List.filter_cons, List.filter_nil, isNetworkEvent]
    · simp [planPhaseEvents, List.filter_append, List.filter_cons, List.filter_nil,
        errFalse_start, errFalse_dash, errFalse_step1, errFalse_analyzing,
        errFalse_modelCall, errFalse_curlCall, errFalse_successUrl, errFalse_step2,
        errFalse_fetchPoints, errFalse_recvPoints, errFalse_step3, errTrue_extractFail]
    · exact getLast?_append_some _ _ _ (by rfl)
  · intro u presp furl msg hplan hcurl hparse hfcurl
    refine ⟨_, agentLoop_pipeline w line rest hnq hne _
      (runPipeline_forecast_fail w _ u presp furl msg hplan hcurl hparse hfcurl), ?_, ?_, ?_⟩
    · simp [planPhaseEvents, List.filter_append, List.filter_cons, List.filter_nil, isNetworkEvent]
    · simp [planPhaseEvents, List.filter_append, List.filter_cons, List.filter_nil,
        errFalse_start, errFalse_dash, errFalse_step1, errFalse_analyzing,
        errFalse_modelCall, errFalse_curlCall, errFalse_successUrl, errFalse_step2,
        errFalse_fetchPoints, errFalse_recvPoints, errFalse_step3, errFalse_forecastUrl,
        errFalse_step4, errFalse_fetchForecast, errTrue_forecastFail]
    · exact getLast?_append_some _ _ _ (by rfl)
  · intro u presp furl fresp msg hplan hcurl hparse hfcurl hproc
    refine ⟨_, agentLoop_pipeline w line rest hnq hne _
      (runPipeline_process_fail w _ u presp furl fresp msg hplan hcurl hparse hfcurl hproc),
      ?_, ?_, ?_⟩
    · simp [planPhaseEvents, List.filter_append, List.filter_cons, List.filter_nil, isNetworkEvent]
    · simp [planPhaseEvents, List.filter_append, List.filter_cons, List.filter_nil,
        errFalse_start, errFalse_dash, errFalse_step1, errFalse_analyzing,
        errFalse_modelCall, errFalse_curlCall, errFalse_successUrl, errFalse_step2,
        errFalse_fetchPoints, errFalse_recvPoints, errFalse_step3, errFalse_forecastUrl,
        errFalse_step4, errFalse_fetchForecast, errFalse_received, errFalse_step5,
        errFalse_processing, errTrue_processFail]
    · exact getLast?_append_some _ _ _ (by rfl)

/-- C7 witness: scenario 5 — the points fetch exits nonzero, the iteration
aborts after exactly one model call and one fetch invocation, with the
stderr-derived `[ERROR]` line last. -/
theorem orchestrator_aborts_on_step_failure_witness :
    iterationAborts wTest "Seattle" []
      [.modelCall (planPrompt (pyStrip "Seattle")),
       .curlCall ["curl", "-s", "https://api.weather.gov/points/47.6062,-122.3321"] 30]
      ("[ERROR] Failed to fetch points data: " ++
        "Curl command failed: curl: (6) Could not resolve host: api.weather.gov") :=
  (orchestrator_aborts_on_step_failure wTest "Seattle" [] (by decide) (by decide)).2.1
    "https://api.weather.gov/points/47.6062,-122.3321"
    "Curl command failed: curl: (6) Could not resolve host: api.weather.gov"
    (by rfl) (by rfl)

/-- C8: an input line that case-insensitively equals `quit`, `exit` or `q`
terminates the loop immediately with the farewell message — the remaining
input lines are never consumed — and the run makes no network calls. -/
theorem quit_input_terminates (w : World) (line : String) (rest : List String)
    (h : pyToLower line ∈ quitWords) :
    run_weather_agent w (line :: rest) =
      (bannerEvents ++ [.printLine inputPrompt, .printLine "Thanks for using the Weather Agent!"],
        .quitCmd)
    ∧ (run_weather_agent w (line :: rest)).1.filter isNetworkEvent = [] := by
  have hq : pyToLower (pyStrip line) ∈ quitWords := by
    rw [pyStrip_id_of_quitWord line h]
    exact h
  have h1 : agentLoop w (line :: rest) =
      ([.printLine inputPrompt, .printLine "Thanks for using the Weather Agent!"], .quitCmd) := by
    conv_lhs => rw [agentLoop]
    rw [if_pos hq]
  constructor
  · unfold run_weather_agent
    rw [h1]
  · unfold run_weather_agent
    rw [h1]
    rfl

/-- C8 witness: input `QUIT` with more input pending. -/
theorem quit_input_terminates_witness :
    run_weather_agent wTest ["QUIT", "Seattle"] =
      (bannerEvents ++ [.printLine inputPrompt, .printLine "Thanks for using the Weather Agent!"],
        .quitCmd)
    ∧ (run_weather_agent wTest ["QUIT", "Seattle"]).1.filter isNetworkEvent = [] :=
  quit_input_terminates wTest "QUIT" ["Seattle"] (by decide)

/-- C9: an empty input line makes the Orchestrator print the error line,
make no network calls in that iteration, and loop back to re-prompt on the
remaining input. -/
theorem empty_input_reprompts (w : World) (rest : List String) :
    run_weather_agent w ("" :: rest) =
      (bannerEvents ++ Event.printLine inputPrompt ::
        Event.printLine "[ERROR] Please enter a location name or description." ::
        (agentLoop w rest).1, (agentLoop w rest).2)
    ∧ [Event.printLine inputPrompt,
        Event.printLine "[ERROR] Please enter a location name or description."].filter
          isNetworkEvent = [] := by
  have h1 : agentLoop w ("" :: rest) =
      (Event.printLine inputPrompt ::
        Event.printLine "[ERROR] Please enter a location name or description." ::
        (agentLoop w rest).1, (agentLoop w rest).2) := by
    conv_lhs => rw [agentLoop]
    rw [if_neg (by decide), if_pos (by decide)]
  constructor
  · unfold run_weather_agent
    rw [h1]
  · rfl

/-- C10: the Orchestrator strips each input line before any check — an
iteration's behaviour depends only on the stripped line, a whitespace-only
line behaves exactly like the empty line, a stripped line matching a quit
word terminates the loop, and when the pipeline runs, the model is prompted
for the stripped line as the location. -/
theorem orchestrator_strips_input (w : World) (line : String) (rest : List String) :
    (∀ l2, pyStrip line = pyStrip l2 →
      agentLoop w (line :: rest) = agentLoop w (l2 :: rest))
    ∧ (pyStrip line = "" →
      agentLoop w (line :: rest) =
        (Event.printLine inputPrompt ::
          Event.printLine "[ERROR] Please enter a location name or description." ::
          (agentLoop w rest).1, (agentLoop w rest).2))
    ∧ (pyToLower (pyStrip line) ∈ quitWords →
      agentLoop w (line :: rest) =
        ([.printLine inputPrompt, .printLine "Thanks for using the Weather Agent!"], .quitCmd))
    ∧ (w.client = .ok () → pyStrip line ≠ "" → pyToLower (pyStrip line) ∉ quitWords →
      Event.modelCall (planPrompt (pyStrip line)) ∈ (agentLoop w (line :: rest)).1) := by
  refine ⟨?_, ?_, ?_, ?_⟩
  · intro l2 h
    conv_lhs => rw [agentLoop]
    conv_rhs => rw [agentLoop]
    rw [h]
  · intro h
    conv_lhs => rw [agentLoop]
    rw [h, if_neg (by decide), if_pos (by decide)]
  · intro h
    conv_lhs => rw [agentLoop]
    rw [if_pos h]
  · intro hcl hne hq
    have hmem := modelCall_mem_runPipeline w (pyStrip line) hcl
    cases hrp : (runPipeline w (pyStrip line)).2 with
    | some c =>
      have hpair : runPipeline w (pyStrip line) = ((runPipeline w (pyStrip line)).1, some c) := by
        rw [← hrp]
      rw [agentLoop_pipeline_crash w line rest hq hne _ c hpair]
      simp only [List.mem_cons]
      right
      exact hmem
    | none =>
      have hpair : runPipeline w (pyStrip line) = ((runPipeline w (pyStrip line)).1, none) := by
        rw [← hrp]
      rw [agentLoop_pipeline w line rest hq hne _ hpair]
      simp only [List.mem_cons, List.mem_append]
      right
      left
      exact hmem

/-- C10 witness: `"  QUIT  "` terminates the loop, and behaves exactly like
`"QUIT"`. -/
theorem orchestrator_strips_input_witness :
    agentLoop wTest ["  QUIT  "] =
      ([.printLine inputPrompt, .printLine "Thanks for using the Weather Agent!"], .quitCmd)
    ∧ agentLoop wTest ["  QUIT  "] = agentLoop wTest ["QUIT"] := by
  have h := orchestrator_strips_input wTest "  QUIT  " []
  exact ⟨h.2.2.1 (by decide), h.1 "QUIT" (by decide)⟩
